import Mathlib

/-!
Shallow embedding of the `coveralls-api` crate (`src/lib.rs`).

Environment access (`std::env::var(name).ok()`) is modelled by a lookup
function `Env := String → Option String`.  File reading and the md5 digest
are external collaborators: `Source.new` receives the result of the read as
an `Except IoError String` and the digest as a function parameter.  The
curl handle held by `CoverallsReport` is transport state; the classifier
`upload_status` is modelled as a function of the transport response code
(`handle.response_code() : Result<u32, curl::Error>`).
-/

/-- Environment state: `var(name).ok()`. -/
def Env : Type := String → Option String

/-- `BranchData` struct. -/
structure BranchData where
  line_number : Nat
  block_name : Nat
  branch_number : Nat
  hits : Nat
deriving Repr, DecidableEq

/-- `expand_lines`: the hit map (`HashMap<usize, usize>`) is modelled by its
lookup function `Nat → Option Nat`. -/
def expand_lines (lines : Nat → Option Nat) (line_count : Nat) : List (Option Nat) :=
  (List.range line_count).map (fun x =>
    match lines (x + 1) with
    | some v => some v
    | none => none)

/-- `expand_branches`. -/
def expand_branches (branches : List BranchData) : List Nat :=
  (branches.map (fun x => [x.line_number, x.block_name, x.branch_number, x.hits])).flatten

/-- `Source` struct. -/
structure Source where
  name : String
  source_digest : String
  coverage : List (Option Nat)
  branches : Option (List Nat)
  source : Option String
deriving Repr, DecidableEq

/-- Opaque I/O error values (`io::Error`). -/
structure IoError where
  code : Nat
deriving Repr, DecidableEq

/-- `content.lines().count()`: `str::lines` splits at `\n` (swallowing a
preceding `\r`), and a final line ending does not produce an extra line.
The number of `\n`-separated pieces is the number of `\n` characters plus
one; the trailing empty piece is dropped when the content ends in `\n`,
and the empty string has no lines at all. -/
def rust_line_count (content : String) : Nat :=
  match content.toList with
  | [] => 0
  | cs => cs.count '\n' + (if cs.getLast? = some '\n' then 0 else 1)

/-- `Source::new`.  `repo_path.to_str()` is modelled by an `Option String`
(`none` when the path is not valid UTF-8); opening and reading the file is
modelled by its result, and `md5::compute`/`format!("{:x}", _)` by the
`digest` parameter. -/
def Source.new (digest : String → String) (repo_path : Option String)
    (read_result : Except IoError String) (lines : Nat → Option Nat)
    (branches : Option (List BranchData)) (include_source : Bool) :
    Except IoError Source :=
  match read_result with
  | .error e => .error e
  | .ok content =>
    let src := if include_source then some content else none
    let brch := match branches with
      | some b => some (expand_branches b)
      | none => none
    let line_count := rust_line_count content
    .ok { name := (repo_path.getD "")
        , source_digest := digest content
        , coverage := expand_lines lines line_count
        , branches := brch
        , source := src }

/-- `Head` struct. -/
structure Head where
  id : String
  author_name : String
  author_email : String
  committer_name : String
  committer_email : String
  message : String
deriving Repr, DecidableEq

/-- `Remote` struct. -/
structure Remote where
  name : String
  url : String
deriving Repr, DecidableEq

/-- `GitInfo` struct. -/
structure GitInfo where
  head : Head
  branch : String
  remotes : List Remote
deriving Repr, DecidableEq

/-- `UploadStatus` enum. -/
inductive UploadStatus where
  | Failed (code : Nat)
  | Succeeded
  | Pending
  | Unknown
deriving Repr, DecidableEq

/-- `CiService` enum. -/
inductive CiService where
  | Travis
  | TravisPro
  | Circle
  | Semaphore
  | Jenkins
  | Codeship
  | Other (s : String)
deriving Repr, DecidableEq

/-- `impl FromStr for CiService` (always returns `Ok`, so modelled total). -/
def CiService.from_str (s : String) : CiService :=
  if s = "travis-ci" then .Travis
  else if s = "travis-pro" then .TravisPro
  else if s = "circle-ci" then .Circle
  else if s = "semaphore" then .Semaphore
  else if s = "jenkins" then .Jenkins
  else if s = "codeship" then .Codeship
  else .Other s

/-- `CiService::value`. -/
def CiService.value : CiService → String
  | .Travis => "travis-ci"
  | .TravisPro => "travis-pro"
  | .Other x => x
  | .Circle => "circle-ci"
  | .Semaphore => "semaphore"
  | .Jenkins => "jenkins"
  | .Codeship => "codeship"

/-- `Service` struct. -/
structure Service where
  name : CiService
  job_id : Option String
  number : Option String
  build_url : Option String
  branch : Option String
  pull_request : Option String
deriving Repr, DecidableEq

/-- `Service::get_travis_env`. -/
def Service.get_travis_env (env : Env) : Service :=
  let id := env "TRAVIS_JOB_ID"
  let pr := match env "TRAVIS_PULL_REQUEST" with
    | some s => if s ≠ "false" then some s else none
    | _ => none
  let branch := env "TRAVIS_BRANCH"
  { name := .Travis, job_id := id, number := none, build_url := none
  , pull_request := pr, branch := branch }

/-- `Service::get_circle_env`. -/
def Service.get_circle_env (env : Env) : Service :=
  let num := env "CIRCLE_BUILD_NUM"
  let branch := env "CIRCLE_BRANCH"
  { name := .Circle, job_id := none, number := num, build_url := none
  , pull_request := none, branch := branch }

/-- `Service::get_jenkins_env`. -/
def Service.get_jenkins_env (env : Env) : Service :=
  let num := env "BUILD_NUM"
  let url := env "BUILD_URL"
  let branch := env "GIT_BRANCH"
  { name := .Jenkins, job_id := none, number := num, build_url := url
  , pull_request := none, branch := branch }

/-- `Service::get_semaphore_env`. -/
def Service.get_semaphore_env (env : Env) : Service :=
  let num := env "SEMAPHORE_BUILD_NUMBER"
  let pr := env "PULL_REQUEST_NUMBER"
  { name := .Semaphore, job_id := none, number := num, pull_request := pr
  , branch := none, build_url := none }

/-- `Service::get_generic_env`. -/
def Service.get_generic_env (env : Env) : Option Service :=
  let name := env "CI_NAME"
  let num := env "CI_BUILD_NUMBER"
  let id := env "CI_JOB_ID"
  let url := env "CI_BUILD_URL"
  let branch := env "CI_BRANCH"
  let pr := env "CI_PULL_REQUEST"
  if name.isSome || num.isSome || id.isSome || url.isSome || branch.isSome
      || pr.isSome then
    let name := name.getD "unknown"
    some { name := CiService.from_str name, job_id := id, number := num
         , pull_request := pr, branch := branch, build_url := url }
  else
    none

/-- `Service::from_env`. -/
def Service.from_env (env : Env) : Option Service :=
  if (env "TRAVIS").isSome then
    some (Service.get_travis_env env)
  else if (env "CIRCLECI").isSome then
    some (Service.get_circle_env env)
  else if (env "JENKINS_URL").isSome then
    some (Service.get_jenkins_env env)
  else if (env "SEMAPHORE").isSome then
    some (Service.get_semaphore_env env)
  else
    Service.get_generic_env env

/-- `Service::from_ci`. -/
def Service.from_ci (env : Env) (ci : CiService) : Option Service :=
  match ci with
  | .Travis | .TravisPro =>
    let temp := Service.get_travis_env env
    some { temp with name := ci }
  | .Circle => some (Service.get_circle_env env)
  | .Semaphore => some (Service.get_semaphore_env env)
  | .Jenkins => some (Service.get_jenkins_env env)
  | _ => Service.get_generic_env env

/-- `Identity` enum. -/
inductive Identity where
  | RepoToken (token : String)
  | ServiceToken (token : String) (service : Service)
deriving Repr, DecidableEq

/-- `Identity::from_token`. -/
def Identity.from_token (env : Env) : Option Identity :=
  match env "COVERALLS_REPO_TOKEN" with
  | some token => some (.RepoToken token)
  | _ => none

/-- `Identity::from_env`. -/
def Identity.from_env (env : Env) : Option Identity :=
  let token := match env "COVERALLS_REPO_TOKEN" with
    | some token => token
    | _ => ""
  match Service.from_env env with
  | some s => some (.ServiceToken token s)
  | _ => none

/-- `Identity::best_match`. -/
def Identity.best_match (env : Env) : Option Identity :=
  match Identity.from_env env with
  | some s => some s
  | none =>
    match Identity.from_token env with
    | some s => some s
    | none => none

/-- `Identity::best_match_with_token`. -/
def Identity.best_match_with_token (env : Env) (token : String) : Identity :=
  match Identity.from_env env with
  | some (.ServiceToken _ s) => .ServiceToken token s
  | _ => .RepoToken token

/-- `CoverallsReport` struct (the curl `handle` is transport state and is
not part of the serialized data model). -/
structure CoverallsReport where
  id : Identity
  source_files : List Source
  commit : Option String
  git : Option GitInfo
deriving Repr, DecidableEq

/-- `CoverallsReport::new`. -/
def CoverallsReport.new (id : Identity) : CoverallsReport :=
  { id := id, source_files := [], commit := none, git := none }

/-- `CoverallsReport::add_source`. -/
def CoverallsReport.add_source (r : CoverallsReport) (source : Source) :
    CoverallsReport :=
  { r with source_files := r.source_files ++ [source] }

/-- `CoverallsReport::set_commit`. -/
def CoverallsReport.set_commit (r : CoverallsReport) (commit : String) :
    CoverallsReport :=
  { r with commit := some commit, git := none }

/-- `CoverallsReport::set_detailed_git_info`. -/
def CoverallsReport.set_detailed_git_info (r : CoverallsReport) (git : GitInfo) :
    CoverallsReport :=
  { r with git := some git, commit := none }

/-- `CoverallsReport::upload_status`, as a function of
`handle.response_code() : Result<u32, curl::Error>` (the curl error is
opaque, modelled by `Unit`). -/
def CoverallsReport.upload_status (response_code : Except Unit Nat) :
    UploadStatus :=
  match response_code with
  | .ok 200 => .Succeeded
  | .ok 0 => .Pending
  | .ok x => .Failed x
  | _ => .Unknown

/-- Values passed to `serialize_field` in `impl Serialize for CoverallsReport`. -/
inductive FieldVal where
  | str (v : String)
  | git (g : GitInfo)
  | sources (v : List Source)
deriving Repr, DecidableEq

/-- One `if let Some(x) = ... { serialize_field(key, x) }` step of the
serializer: the field emitted for an optional string value. -/
def opt_str_field (key : String) (v : Option String) :
    List (String × FieldVal) :=
  match v with
  | some x => [(key, .str x)]
  | none => []

/-- The `if let Some(git) = ... { serialize_field("git", git) }` step. -/
def opt_git_field (v : Option GitInfo) : List (String × FieldVal) :=
  match v with
  | some g => [("git", .git g)]
  | none => []

/-- `impl Serialize for CoverallsReport`: the ordered sequence of
`serialize_field(key, value)` calls. -/
def CoverallsReport.serialize_fields (r : CoverallsReport) :
    List (String × FieldVal) :=
  (match r.id with
   | .RepoToken t => [("repo_token", .str t)]
   | .ServiceToken t serv =>
     (if ¬t.isEmpty then [("repo_token", FieldVal.str t)] else []) ++
     [("service_name", .str serv.name.value)] ++
     opt_str_field "service_job_id" serv.job_id ++
     opt_str_field "service_number" serv.number ++
     opt_str_field "service_build_url" serv.build_url ++
     opt_str_field "service_branch" serv.branch ++
     opt_str_field "service_pull_request" serv.pull_request) ++
  opt_str_field "commit_sha" r.commit ++
  opt_git_field r.git ++
  [("source_files", .sources r.source_files)]

/-- Operations that mutate a `CoverallsReport` after construction. -/
inductive ReportOp where
  | addSource (s : Source)
  | setCommit (c : String)
  | setGit (g : GitInfo)
deriving Repr, DecidableEq

/-- Apply one mutating operation. -/
def CoverallsReport.apply_op (r : CoverallsReport) : ReportOp → CoverallsReport
  | .addSource s => r.add_source s
  | .setCommit c => r.set_commit c
  | .setGit g => r.set_detailed_git_info g

/-- Run a sequence of operations from a freshly constructed report. -/
def CoverallsReport.run_ops (id : Identity) (ops : List ReportOp) :
    CoverallsReport :=
  ops.foldl CoverallsReport.apply_op (CoverallsReport.new id)

/-- C8: `expand_lines` produces a sequence of length exactly `line_count`
whose element at index `i < line_count` is the map entry at key `i + 1`
(`some` of the hit count when present, `none` otherwise), and a
`line_count` of `0` yields the empty sequence. -/
theorem expand_lines_spec (lines : Nat → Option Nat) (line_count : Nat) :
    (expand_lines lines line_count).length = line_count ∧
    (∀ i, i < line_count →
      (expand_lines lines line_count).getD i none = lines (i + 1)) ∧
    expand_lines lines 0 = [] := by
  refine ⟨by simp [expand_lines], fun i hi => ?_, by simp [expand_lines]⟩
  have hlen : i < (expand_lines lines line_count).length := by
    simpa [expand_lines] using hi
  rw [List.getD_eq_getElem _ _ hlen]
  simp [expand_lines]
  cases lines (i + 1) <;> simp

/-- C8 witness: concrete evaluation at the map `{5 ↦ 1, 6 ↦ 1, 8 ↦ 2}` with
`line_count = 10`, index `4`. -/
theorem expand_lines_spec_witness :
    (expand_lines
      (fun k => if k = 5 then some 1 else if k = 6 then some 1
                else if k = 8 then some 2 else none) 10).getD 4 none
      = some 1 :=
  ((expand_lines_spec
      (fun k => if k = 5 then some 1 else if k = 6 then some 1
                else if k = 8 then some 2 else none) 10).2.1 4
    (by decide)).trans (by decide)

/-- The empty environment: no variable is set. -/
def env_none : Env := fun _ => none

/-- An environment with both `TRAVIS` and `CIRCLECI` set. -/
def env_travis_circle : Env := fun n =>
  if n == "TRAVIS" || n == "CIRCLECI" then some "1" else none

/-- C9: upload-status classification is a pure total function of the
transport response code: `Ok(200) ↦ Succeeded`, `Ok(0) ↦ Pending`, any
other successful code `x ↦ Failed(x)`, and any transport error `↦ Unknown`. -/
theorem upload_status_spec :
    CoverallsReport.upload_status (.ok 200) = .Succeeded ∧
    CoverallsReport.upload_status (.ok 0) = .Pending ∧
    (∀ x : Nat, CoverallsReport.upload_status (.ok x) =
      if x = 200 then .Succeeded else if x = 0 then .Pending else .Failed x) ∧
    (∀ e : Unit, CoverallsReport.upload_status (.error e) = .Unknown) := by
  refine ⟨rfl, rfl, fun x => ?_, fun e => rfl⟩
  unfold CoverallsReport.upload_status
  split <;> simp_all

/-- C6: the Travis extraction takes `job_id` from `TRAVIS_JOB_ID`, `branch`
from `TRAVIS_BRANCH`, takes `pull_request` from `TRAVIS_PULL_REQUEST`
exactly when that variable is set to a value other than the literal
`"false"`, and leaves `build_number` and `build_url` unset. -/
theorem get_travis_env_spec (env : Env) :
    (Service.get_travis_env env).job_id = env "TRAVIS_JOB_ID" ∧
    (Service.get_travis_env env).branch = env "TRAVIS_BRANCH" ∧
    (∀ v, (Service.get_travis_env env).pull_request = some v ↔
      (env "TRAVIS_PULL_REQUEST" = some v ∧ v ≠ "false")) ∧
    (Service.get_travis_env env).number = none ∧
    (Service.get_travis_env env).build_url = none := by
  refine ⟨rfl, rfl, fun v => ?_, rfl, rfl⟩
  unfold Service.get_travis_env
  cases h : env "TRAVIS_PULL_REQUEST" with
  | none => simp [h]
  | some s =>
    by_cases hs : s = "false"
    · subst hs
      simp [h]
      rintro rfl
      simp
    · simp [h, hs]
      intro he
      subst he
      exact hs

/-- An environment with only `TRAVIS_PULL_REQUEST` set (to `"7"`). -/
def env_travis_pr : Env := fun n =>
  if n == "TRAVIS_PULL_REQUEST" then some "7" else none

/-- C6 witness: with `TRAVIS_PULL_REQUEST=7` the Travis extraction reports
pull request `"7"`. -/
theorem get_travis_env_spec_witness :
    (Service.get_travis_env env_travis_pr).pull_request = some "7" :=
  ((get_travis_env_spec env_travis_pr).2.2.1 "7").mpr ⟨rfl, by decide⟩

/-- C4: CI autodetection tests the presence indicators in the fixed order
`TRAVIS`, `CIRCLECI`, `JENKINS_URL`, `SEMAPHORE`, then the generic
fallback, short-circuiting on the first one set; in particular when both
`TRAVIS` and `CIRCLECI` are set the result is the Travis extraction only. -/
theorem from_env_spec (env : Env) :
    ((env "TRAVIS").isSome = true →
      Service.from_env env = some (Service.get_travis_env env)) ∧
    (env "TRAVIS" = none → (env "CIRCLECI").isSome = true →
      Service.from_env env = some (Service.get_circle_env env)) ∧
    (env "TRAVIS" = none → env "CIRCLECI" = none →
      (env "JENKINS_URL").isSome = true →
      Service.from_env env = some (Service.get_jenkins_env env)) ∧
    (env "TRAVIS" = none → env "CIRCLECI" = none → env "JENKINS_URL" = none →
      (env "SEMAPHORE").isSome = true →
      Service.from_env env = some (Service.get_semaphore_env env)) ∧
    (env "TRAVIS" = none → env "CIRCLECI" = none → env "JENKINS_URL" = none →
      env "SEMAPHORE" = none →
      Service.from_env env = Service.get_generic_env env) ∧
    ((env "TRAVIS").isSome = true → (env "CIRCLECI").isSome = true →
      Service.from_env env = some (Service.get_travis_env env)) := by
  refine ⟨fun h1 => ?_, fun h1 h2 => ?_, fun h1 h2 h3 => ?_,
    fun h1 h2 h3 h4 => ?_, fun h1 h2 h3 h4 => ?_, fun h1 _ => ?_⟩
  · simp [Service.from_env, h1]
  · simp [Service.from_env, h1, h2]
  · simp [Service.from_env, h1, h2, h3]
  · simp [Service.from_env, h1, h2, h3, h4]
  · simp [Service.from_env, h1, h2, h3, h4]
  · simp [Service.from_env, h1]

/-- C4 witness: with `TRAVIS` and `CIRCLECI` both set, `from_env` yields
the Travis extraction. -/
theorem from_env_spec_witness :
    Service.from_env env_travis_circle =
      some (Service.get_travis_env env_travis_circle) :=
  (from_env_spec env_travis_circle).2.2.2.2.2 rfl rfl

/-- C5: `from_ci` dispatches on the supplied tag to the per-service
extraction (Travis-style extraction with the tag written back for
`Travis`/`TravisPro`, Circle, Semaphore and Jenkins extractions for their
tags, and the generic fallback for everything else), and for the
`Travis`/`TravisPro` tags the produced service's `name` equals the
supplied tag. -/
theorem from_ci_spec (env : Env) (ci : CiService) :
    Service.from_ci env ci =
      (match ci with
       | .Travis => some { Service.get_travis_env env with name := .Travis }
       | .TravisPro => some { Service.get_travis_env env with name := .TravisPro }
       | .Circle => some (Service.get_circle_env env)
       | .Semaphore => some (Service.get_semaphore_env env)
       | .Jenkins => some (Service.get_jenkins_env env)
       | .Codeship => Service.get_generic_env env
       | .Other _ => Service.get_generic_env env) ∧
    (∀ s, ci = .Travis ∨ ci = .TravisPro → Service.from_ci env ci = some s →
      s.name = ci) := by
  constructor
  · cases ci <;> rfl
  · rintro s (rfl | rfl) hs <;>
      (simp only [Service.from_ci, Option.some.injEq] at hs; subst hs; rfl)

/-- C5 witness: for the `Travis` tag with the empty environment the
produced service's `name` is `Travis`. -/
theorem from_ci_spec_witness :
    ({ Service.get_travis_env env_none with name := CiService.Travis }).name
      = CiService.Travis :=
  (from_ci_spec env_none .Travis).2
    { Service.get_travis_env env_none with name := CiService.Travis }
    (Or.inl rfl) rfl

/-- Helper for C3: one fold step preserves mutual exclusion of
`commit` and `git`. -/
theorem foldl_apply_op_exclusive (ops : List ReportOp) :
    ∀ r : CoverallsReport, (r.commit.isSome && r.git.isSome) = false →
    ((ops.foldl CoverallsReport.apply_op r).commit.isSome &&
      (ops.foldl CoverallsReport.apply_op r).git.isSome) = false := by
  induction ops with
  | nil => intro r h; simpa using h
  | cons op ops ih =>
    intro r h
    rw [List.foldl_cons]
    apply ih
    cases op <;>
      simp_all [CoverallsReport.apply_op, CoverallsReport.add_source,
        CoverallsReport.set_commit, CoverallsReport.set_detailed_git_info]

/-- C3: after any sequence of operations on a freshly constructed report,
`commit` and `git` are never both set; moreover `set_commit` clears `git`
and `set_detailed_git_info` clears `commit`. -/
theorem report_mutual_exclusion (id : Identity) (ops : List ReportOp) :
    (((CoverallsReport.run_ops id ops).commit.isSome &&
      (CoverallsReport.run_ops id ops).git.isSome) = false) ∧
    (∀ (r : CoverallsReport) (c : String), (r.set_commit c).git = none) ∧
    (∀ (r : CoverallsReport) (g : GitInfo),
      (r.set_detailed_git_info g).commit = none) := by
  refine ⟨?_, fun r c => rfl, fun r g => rfl⟩
  exact foldl_apply_op_exclusive ops (CoverallsReport.new id) rfl

/-- C1: identity resolution precedence.  The explicit token is the argument
of `best_match_with_token`; for the argumentless `best_match` the token is
supplied through the `COVERALLS_REPO_TOKEN` environment variable.  In both
cases: when a service is derivable from the environment the result is
`ServiceToken` of the supplied token (empty when none was supplied) and
that service; otherwise `RepoToken` of the supplied token when one was
supplied; otherwise resolution fails. -/
theorem identity_resolution_spec (env : Env) (token : String) :
    Identity.best_match_with_token env token =
      (match Service.from_env env with
       | some s => .ServiceToken token s
       | none => .RepoToken token) ∧
    Identity.best_match env =
      (match Service.from_env env with
       | some s =>
         some (.ServiceToken ((env "COVERALLS_REPO_TOKEN").getD "") s)
       | none => (env "COVERALLS_REPO_TOKEN").map .RepoToken) := by
  cases h : Service.from_env env <;>
    cases ht : env "COVERALLS_REPO_TOKEN" <;>
      simp [Identity.best_match_with_token, Identity.best_match,
        Identity.from_env, Identity.from_token, h, ht]

/-- C10: when the repo-relative path is not valid UTF-8
(`repo_path.to_str()` is `None`) but the file content is readable,
`Source::new` still succeeds and the resulting `name` is the empty
string. -/
theorem source_new_non_utf8_path (digest : String → String) (content : String)
    (lines : Nat → Option Nat) (branches : Option (List BranchData))
    (include_source : Bool) :
    ∃ src, Source.new digest none (.ok content) lines branches include_source
        = .ok src ∧ src.name = "" :=
  ⟨_, rfl, rfl⟩

/-- An environment with only `CI_NAME` set (to `"codeship"`). -/
def env_ci_name : Env := fun n =>
  if n == "CI_NAME" then some "codeship" else none

/-- The service the generic fallback extracts from `env_ci_name`. -/
def generic_codeship : Service :=
  { name := .Codeship, job_id := none, number := none, build_url := none
  , branch := none, pull_request := none }

/-- C7: the generic fallback returns `none` exactly when none of the six
`CI_*` variables is present; otherwise it returns a service whose `name`
is parsed from `CI_NAME` (defaulting to `"unknown"`, hence
`Other "unknown"`, when absent) and whose remaining fields are mapped
field-for-field. -/
theorem get_generic_env_spec (env : Env) :
    (Service.get_generic_env env = none ↔
      (env "CI_NAME" = none ∧ env "CI_BUILD_NUMBER" = none ∧
       env "CI_JOB_ID" = none ∧ env "CI_BUILD_URL" = none ∧
       env "CI_BRANCH" = none ∧ env "CI_PULL_REQUEST" = none)) ∧
    (∀ s, Service.get_generic_env env = some s →
      (s.name = CiService.from_str ((env "CI_NAME").getD "unknown") ∧
       s.job_id = env "CI_JOB_ID" ∧ s.number = env "CI_BUILD_NUMBER" ∧
       s.build_url = env "CI_BUILD_URL" ∧ s.branch = env "CI_BRANCH" ∧
       s.pull_request = env "CI_PULL_REQUEST")) := by
  cases h1 : env "CI_NAME" <;> cases h2 : env "CI_BUILD_NUMBER" <;>
    cases h3 : env "CI_JOB_ID" <;> cases h4 : env "CI_BUILD_URL" <;>
    cases h5 : env "CI_BRANCH" <;> cases h6 : env "CI_PULL_REQUEST" <;>
    simp [Service.get_generic_env, h1, h2, h3, h4, h5, h6]

/-- C7 witness: with only `CI_NAME=codeship` set, the fallback yields a
service whose fields are mapped from the `CI_*` variables. -/
theorem get_generic_env_spec_witness :
    generic_codeship.name
        = CiService.from_str ((env_ci_name "CI_NAME").getD "unknown") ∧
    generic_codeship.job_id = env_ci_name "CI_JOB_ID" ∧
    generic_codeship.number = env_ci_name "CI_BUILD_NUMBER" ∧
    generic_codeship.build_url = env_ci_name "CI_BUILD_URL" ∧
    generic_codeship.branch = env_ci_name "CI_BRANCH" ∧
    generic_codeship.pull_request = env_ci_name "CI_PULL_REQUEST" :=
  (get_generic_env_spec env_ci_name).2 generic_codeship (by decide)

/-- Helper for C2: `lookup` distributes over list append. -/
theorem lookup_append (k : String) (l₁ l₂ : List (String × FieldVal)) :
    List.lookup k (l₁ ++ l₂) = (List.lookup k l₁).or (List.lookup k l₂) := by
  induction l₁ with
  | nil => simp [List.lookup]
  | cons p l ih =>
    obtain ⟨a, b⟩ := p
    simp only [List.cons_append, List.lookup]
    cases k == a <;> simp [ih]

/-- Helper for C2: `lookup` on an optional string field. -/
theorem lookup_opt_str_field (k key : String) (v : Option String) :
    List.lookup k (opt_str_field key v) =
      if k == key then v.map FieldVal.str else none := by
  cases v <;> cases hk : k == key <;> simp [opt_str_field, List.lookup, hk]

/-- Helper for C2: `lookup` on the optional git field. -/
theorem lookup_opt_git_field (k : String) (v : Option GitInfo) :
    List.lookup k (opt_git_field v) =
      if k == "git" then v.map FieldVal.git else none := by
  cases v <;> cases hk : k == "git" <;> simp [opt_git_field, List.lookup, hk]

/-- C2: for a report whose identity is `ServiceToken(token, serv)`, the
serialized field list contains `repo_token` (with value `token`) exactly
when `token` is non-empty, always contains `service_name` mapped through
`CiService::value`, and contains each of the five optional service fields
exactly when the corresponding option is present, under exactly these key
names. -/
theorem serialize_service_token_spec (r : CoverallsReport) (token : String)
    (serv : Service) (h : r.id = .ServiceToken token serv) :
    ((r.serialize_fields).lookup "repo_token" =
      if token.isEmpty then none else some (.str token)) ∧
    (r.serialize_fields).lookup "service_name"
        = some (.str serv.name.value) ∧
    (r.serialize_fields).lookup "service_job_id"
        = serv.job_id.map FieldVal.str ∧
    (r.serialize_fields).lookup "service_number"
        = serv.number.map FieldVal.str ∧
    (r.serialize_fields).lookup "service_build_url"
        = serv.build_url.map FieldVal.str ∧
    (r.serialize_fields).lookup "service_branch"
        = serv.branch.map FieldVal.str ∧
    (r.serialize_fields).lookup "service_pull_request"
        = serv.pull_request.map FieldVal.str := by
  obtain ⟨id, sf, cm, gi⟩ := r
  simp only at h
  subst h
  by_cases ht : token.isEmpty <;>
    simp [CoverallsReport.serialize_fields, lookup_append,
      lookup_opt_str_field, lookup_opt_git_field, List.lookup, ht]

/-- The service of the worked serialization example: Circle with only a
build number. -/
def example_circle : Service :=
  { name := .Circle, job_id := none, number := some "42", build_url := none
  , branch := none, pull_request := none }

/-- A report with identity `ServiceToken("", example_circle)`. -/
def example_report : CoverallsReport :=
  { id := .ServiceToken "" example_circle, source_files := [], commit := none
  , git := none }

/-- C2 witness: `ServiceToken("", Circle service with build number 42)`
serializes with `service_name = "circle-ci"`, `service_number = "42"` and
no `repo_token` key. -/
theorem serialize_service_token_spec_witness :
    (example_report.serialize_fields).lookup "repo_token" = none ∧
    (example_report.serialize_fields).lookup "service_name"
        = some (.str "circle-ci") ∧
    (example_report.serialize_fields).lookup "service_number"
        = some (.str "42") := by
  have h := serialize_service_token_spec example_report "" example_circle rfl
  exact ⟨h.1.trans (by decide), h.2.1.trans (by decide),
    h.2.2.2.1.trans (by decide)⟩
